import Mathlib

/-!
Verification of the parameter override and derivation pipeline of
flaskCarculator (`src/flaskCarculator/lca.py`), as a shallow embedding.

The vehicle parameter table (an xarray `DataArray` in the source) is embedded
as a total function from the four coordinates `(powertrain, size, year,
parameter)` to a rational value; the stochastic `value` axis is collapsed to
its representative `value=0` slice, so every coordinate holds one scalar.
Label-based broadcast writes (`array.loc[dict(parameter=...)] = v`, which
assign across every coordinate of the unspecified axes) become function
updates guarded only by the coordinates the source names.

Python exceptions are embedded with `Except`: a dictionary subscript
`params["k"]` on a missing key raises `KeyError`, and Python scalar division
by zero raises `ZeroDivisionError`.  Division of xarray/numpy arrays by zero
does NOT raise (numpy yields `inf`/`nan` under a warning); such array
divisions are embedded with total rational division, and no error path is
introduced for them, mirroring the absence of one in the source.
-/

namespace FlaskCarculator

/-- The vehicle parameter table: scalar values addressed by
(powertrain, size class, year, parameter name). -/
abbrev Table := String → String → Int → String → ℚ

/-- Failures surfaced by the pipeline.  `keyError k` embeds Python's
`KeyError` on a missing request field `k`; `zeroDivisionError` embeds
Python's `ZeroDivisionError` on scalar division by zero; `validationError vs`
embeds the `ValueError` raised by `initialize_model` when the output
validator returns the violation list `vs`. -/
inductive Err where
  | keyError (key : String)
  | zeroDivisionError
  | validationError (violations : List String)
deriving DecidableEq

/-- A vehicle configuration request (the `params` dict).  The categorical
fields the pipeline dereferences are explicit; the open set of numeric
override fields is a partial map from field name to value. -/
structure Params where
  vehicle_type : String
  powertrain : String
  size : String
  year : Int
  fields : String → Option ℚ

/-- `params["k"]` on the numeric fields: raises `KeyError` when absent. -/
def Params.get (p : Params) (k : String) : Except Err ℚ :=
  match p.fields k with
  | some v => .ok v
  | none => .error (.keyError k)

/-- `params.get("k", 0)`: the value when present, else `0`. -/
def Params.getD (p : Params) (k : String) : ℚ :=
  (p.fields k).getD 0

/-- `array.loc[dict(parameter=param)] = v`: a broadcast write across the
powertrain, size and year axes. -/
def setParamAll (param : String) (v : ℚ) (t : Table) : Table :=
  fun pt sz yr q => if q = param then v else t pt sz yr q

/-- `array.loc[dict(powertrain=ptKey, parameter=param)] = v`: a write for one
powertrain, broadcast across size and year. -/
def setParamFor (ptKey param : String) (v : ℚ) (t : Table) : Table :=
  fun pt sz yr q => if pt = ptKey ∧ q = param then v else t pt sz yr q

/-- `set_combustion_power_share(array, params)` (lca.py lines 34-45).
In the hybrid branch the two engine-power fields are Python scalars, so the
division raises `ZeroDivisionError` when `total_engine_power` is zero. -/
def set_combustion_power_share (params : Params) (array : Table) :
    Except Err Table :=
  if params.powertrain = "HEV-d" ∨ params.powertrain = "HEV-p" then do
    let pe ← params.get "primary_engine_power"
    let te ← params.get "total_engine_power"
    if te = 0 then .error .zeroDivisionError
    else .ok (setParamAll "combustion power share" (pe / te) array)
  else if params.powertrain = "ICEV-d" ∨ params.powertrain = "ICEV-p" ∨
      params.powertrain = "ICEV-g" then
    .ok (setParamAll "combustion power share" 1 array)
  else if params.powertrain = "BEV" ∨ params.powertrain = "FCEV" then
    .ok (setParamAll "combustion power share" 0 array)
  else
    .ok array

/-- `set_vehicle_properties_before_run(model, params)` (lca.py lines 48-56).
`density` stands for the lookup `FUEL_SPECS[powertrain]["density"]`.
Modelled from the spec: `FUEL_SPECS` lives in `flaskCarculator/data/mapping.py`,
which is not among the given sources; the spec describes it as a fixed
fuel-property table mapping a powertrain identifier to a fuel density, so it
is taken as an arbitrary function of the powertrain. -/
def set_vehicle_properties_before_run (density : String → ℚ) (params : Params)
    (t : Table) : Table :=
  if params.getD "fuel tank volume" > 0 then
    setParamAll "fuel mass" (params.getD "fuel tank volume" * density params.powertrain) t
  else t

/-- One guarded override line `if params.get(k, 0) > 0:
array.loc[dict(parameter=k)] = f(params[k])` of the post-run pass: applied
only when the field is present and positive (in which case `params[k]`
equals `params.get(k, 0)`), else the table is untouched. -/
def overrideWrite (params : Params) (k : String) (f : ℚ → ℚ) (t : Table) :
    Table :=
  if 0 < params.getD k then setParamAll k (f (params.getD k)) t else t

/-- `set_vehicle_properties_after_run(model, params)` (lca.py lines 59-76):
five independently guarded broadcast writes, in source order (driving mass
first, range last); the two consumption figures are stored divided by 100,
the other three values are written as supplied. -/
def set_vehicle_properties_after_run (params : Params) (t : Table) : Table :=
  overrideWrite params "range" (fun v => v)
    (overrideWrite params "electricity consumption" (fun v => v / 100)
      (overrideWrite params "fuel consumption" (fun v => v / 100)
        (overrideWrite params "TtW energy" (fun v => v)
          (overrideWrite params "driving mass" (fun v => v) t))))

/-- The unconditional per-powertrain writes of `set_properties_for_plugin`
(lca.py lines 85-93), with the request values already read out: overwrite the
two consumption figures (divided by 100), TtW energy, electric energy stored,
the power split, and ADD the delta between the requested curb mass and the
table's current curb mass to the glider base mass (the `+=` on line 89). -/
def plugin_overrides (ptKey : String) (ec fc ttw ees curb primary power : ℚ)
    (t : Table) : Table :=
  let t := setParamFor ptKey "electricity consumption" (ec / 100) t
  let t := setParamFor ptKey "fuel consumption" (fc / 100) t
  let t := setParamFor ptKey "TtW energy" ttw t
  let t := setParamFor ptKey "electric energy stored" ees t
  let t := fun pt sz yr q =>
    if pt = ptKey ∧ q = "glider base mass" then
      t pt sz yr "glider base mass" + (curb - t pt sz yr "curb mass")
    else t pt sz yr q
  let t := setParamFor ptKey "combustion power" primary t
  let t := setParamFor ptKey "electric power" (power - primary) t
  let t := setParamFor ptKey "power" power t
  t

/-- Lines 98-106 of lca.py for a plug-in powertrain `ptKey` with
charge-sustaining counterpart `csKey`: `ratio_range = range_c / range_km`
computed per (size, year), then the plug-in variant's fuel mass is divided by
it.  Both operands are xarray selections, so a zero plug-in range does not
raise; the division is total (numpy yields `inf`/`nan`, here rational
division with denominator-zero convention `x / 0 = 0`). -/
def plugin_range_ratio_stage (ptKey csKey : String) (t : Table) : Table :=
  fun pt sz yr q =>
    if pt = ptKey ∧ q = "fuel mass" then
      t pt sz yr "fuel mass" / (t csKey sz yr "range" / t ptKey sz yr "range")
    else t pt sz yr q

/-- The body of `set_properties_for_plugin` once the request values have
been read out: the unconditional per-powertrain writes, the two external
solver recomputation calls `svm` (`model.set_vehicle_mass()`) and `scm`
(`model.set_component_masses()`), the driving-mass write of line 96
(`model["driving mass"] = ...`, the carculator model's parameter setter, a
broadcast write to the "driving mass" parameter), and the range-ratio
division of lines 98-106. -/
def plugin_apply (svm scm : Table → Table) (ptKey : String)
    (ec fc ttw ees curb primary power dm : ℚ) (t : Table) : Except Err Table :=
  let t := plugin_overrides ptKey ec fc ttw ees curb primary power t
  let t := scm (svm t)
  let t := setParamAll "driving mass" dm t
  if ptKey = "PHEV-p" then
    .ok (plugin_range_ratio_stage "PHEV-p" "PHEV-c-p" t)
  else if ptKey = "PHEV-d" then
    .ok (plugin_range_ratio_stage "PHEV-d" "PHEV-c-d" t)
  else
    .error .zeroDivisionError

/-- `set_properties_for_plugin(model, params)` (lca.py lines 78-108).
Every request field is subscripted unconditionally, so any absent field
raises `KeyError`; the reads are hoisted ahead of the writes, which preserves
the success/failure outcome, the surfaced key, and the table returned on
success.  When the powertrain is neither "PHEV-p" nor "PHEV-d" both ranges
remain the Python integers `0, 0` from line 98 and `range_c / range_km`
raises `ZeroDivisionError`. -/
def set_properties_for_plugin (svm scm : Table → Table) (params : Params)
    (t : Table) : Except Err Table := do
  let ec ← params.get "electricity consumption"
  let fc ← params.get "fuel consumption"
  let ttw ← params.get "TtW energy"
  let ees ← params.get "electric energy stored"
  let curb ← params.get "curb mass"
  let primary ← params.get "primary power"
  let power ← params.get "power"
  let dm ← params.get "driving mass"
  plugin_apply svm scm params.powertrain ec fc ttw ees curb primary power dm t

/-- The external collaborators `initialize_model` orchestrates, plus the two
pieces of repository code outside the given sources.
`mkArray` is the statistical input-parameter generation of lines 115-124
(`input_parameters`, `static`, `fill_xarray_from_input_parameters`, the year
interpolation); `mkModel` is the vehicle-class model constructor of lines
127-172, which receives the scoped array together with the optional
`energy_storage` / `power` / `target_mass` / `energy_consumption` request
dictionaries built on lines 129-161, all opaque collaborator behavior here;
`set_all` is the physics solver; `set_vehicle_mass` and
`set_component_masses` are its narrower recomputation entry points;
`drop_hybrid` drops intermediate hybrid variants for cars;
`calculate_impacts` is the inventory computation of lines 191-194 already
restricted to its representative `value=0` slice. -/
structure Externals where
  /-- Modelled from the spec: the `FUEL_SPECS` fuel-property table of
  `flaskCarculator/data/mapping.py` (not among the given sources), mapping a
  powertrain identifier to its fuel density. -/
  density : String → ℚ
  mkArray : Params → Table
  mkModel : Params → Table → Table
  set_all : Table → Table
  set_vehicle_mass : Table → Table
  set_component_masses : Table → Table
  drop_hybrid : Table → Table
  /-- Modelled from the spec: `validate_output_data` of
  `flaskCarculator/output_validation.py` (not among the given sources),
  returning the list of violations for the finished model and the original
  request; the empty list means the model passes. -/
  validate : Table → Params → List String
  calculate_impacts : Table → ℚ

/-- The mutation stages of `initialize_model` (lca.py lines 115-184): build
and interpolate the base array, classify the combustion power share, run the
model constructor, the pre-run overrides, the physics solver, the post-run
overrides, the plug-in adjustment for the two plug-in hybrid powertrains, and
drop hybrid variants for cars. -/
def pipeline_mutations (E : Externals) (params : Params) : Except Err Table := do
  let array := E.mkArray params
  let array ← set_combustion_power_share params array
  let m := E.mkModel params array
  let m := set_vehicle_properties_before_run E.density params m
  let m := E.set_all m
  let m := set_vehicle_properties_after_run params m
  let m ← if params.powertrain = "PHEV-d" ∨ params.powertrain = "PHEV-p" then
      set_properties_for_plugin E.set_vehicle_mass E.set_component_masses params m
    else .ok m
  .ok (if params.vehicle_type = "car" then E.drop_hybrid m else m)

/-- `initialize_model(params, country)` (lca.py lines 110-196): run the
mutation stages, call the output validator on the finished model, raise
`ValueError` carrying the violations if there are any, else compute impacts,
attach the representative result slice and return the model (embedded as the
pair of the final table and the attached result). -/
def initialize_model (E : Externals) (params : Params) :
    Except Err (Table × ℚ) := do
  let m ← pipeline_mutations E params
  let errors := E.validate m params
  if errors ≠ [] then
    .error (.validationError errors)
  else
    .ok (m, E.calculate_impacts (m))

/-- The table carried by an adjuster result, with a fallback for the error
case (used only to compare successful results at a coordinate). -/
def resTable (e : Except Err Table) : Table :=
  match e with
  | .ok t => t
  | .error _ => fun _ _ _ _ => 0

/-- Whether a pipeline step returned a model rather than raising. -/
def isOkE (e : Except Err Table) : Bool :=
  match e with
  | .ok _ => true
  | .error _ => false

/-- The eight request fields `set_properties_for_plugin` subscripts
unconditionally, in the order the source reads them. -/
def pluginKeys : List String :=
  ["electricity consumption", "fuel consumption", "TtW energy",
   "electric energy stored", "curb mass", "primary power", "power",
   "driving mass"]

/-- Every field the plug-in adjuster reads is present in the request. -/
def pluginFieldsPresent (p : Params) : Prop :=
  ∀ k ∈ pluginKeys, (p.fields k).isSome

instance (p : Params) : Decidable (pluginFieldsPresent p) := by
  unfold pluginFieldsPresent; infer_instance

/-! Concrete inputs used by witnesses and counterexamples. -/

/-- A finite numeric field map built from an association list. -/
def mkFields (l : List (String × ℚ)) : String → Option ℚ :=
  fun k => (l.find? (fun kv => kv.1 = k)).map Prod.snd

/-- A table holding the same value at every coordinate. -/
def constTable (v : ℚ) : Table := fun _ _ _ _ => v

/-- A hybrid-petrol request with both engine-power fields supplied. -/
def hevRequest : Params :=
  ⟨"car", "HEV-p", "Medium", 2020,
    mkFields [("primary_engine_power", 60), ("total_engine_power", 100)]⟩

/-- A hybrid-petrol request whose total engine power is zero. -/
def hevZeroTotalRequest : Params :=
  ⟨"car", "HEV-p", "Medium", 2020,
    mkFields [("primary_engine_power", 60), ("total_engine_power", 0)]⟩

/-- A diesel combustion request with a fuel tank volume override. -/
def icevRequest : Params :=
  ⟨"car", "ICEV-d", "Medium", 2020, mkFields [("fuel tank volume", 50)]⟩

/-- A battery-electric request that still carries a power field. -/
def bevRequest : Params :=
  ⟨"car", "BEV", "Medium", 2020, mkFields [("power", 150)]⟩

/-- A request carrying all five post-run override fields. -/
def postRunRequest : Params :=
  ⟨"car", "ICEV-d", "Medium", 2020,
    mkFields [("driving mass", 1900), ("TtW energy", 2500),
      ("fuel consumption", 6), ("electricity consumption", 14), ("range", 700)]⟩

/-- A plug-in-hybrid-diesel request carrying all eight fields the plug-in
adjuster reads. -/
def phevParams : Params :=
  ⟨"truck", "PHEV-d", "Medium", 2020,
    mkFields [("electricity consumption", 20), ("fuel consumption", 5),
      ("TtW energy", 12000), ("electric energy stored", 40),
      ("curb mass", 1500), ("primary power", 80), ("power", 120),
      ("driving mass", 1600)]⟩

/-- The same plug-in request with the TtW energy field supplied as zero. -/
def phevZeroTtwParams : Params :=
  ⟨"truck", "PHEV-d", "Medium", 2020,
    mkFields [("electricity consumption", 20), ("fuel consumption", 5),
      ("TtW energy", 0), ("electric energy stored", 40),
      ("curb mass", 1500), ("primary power", 80), ("power", 120),
      ("driving mass", 1600)]⟩

/-- A solved table for the plug-in pair: charge-sustaining range 100,
plug-in range 50, fuel mass 30, curb mass 1400, glider base mass 1000. -/
def phevBase : Table := fun pt _ _ q =>
  if q = "curb mass" then 1400
  else if q = "glider base mass" then 1000
  else if pt = "PHEV-c-d" ∧ q = "range" then 100
  else if q = "range" then 50
  else if q = "fuel mass" then 30
  else 0

/-- A solved table whose plug-in variant has range zero (the degenerate
ratio denominator), with charge-sustaining range 100 and fuel mass 30. -/
def phevZeroRangeTable : Table := fun pt _ _ q =>
  if pt = "PHEV-c-d" ∧ q = "range" then 100
  else if q = "range" then 0
  else if q = "fuel mass" then 30
  else if q = "curb mass" then 1400
  else 0

/-- Stub collaborators: identity solver passes, a validator reporting one
violation, constant density and impacts. -/
def stubExternals : Externals :=
  ⟨fun _ => 1, fun _ => constTable 3, fun _ a => a, id, id, id, id,
    fun _ _ => ["range deviates"], fun _ => 0⟩

/-- Reads the glider base mass of the plug-in-diesel variant out of an
adjuster result. -/
def gliderAt (e : Except Err Table) : ℚ :=
  resTable e "PHEV-d" "Medium" 2020 "glider base mass"

/-! Evaluation lemmas. -/

/-- Pointwise value of one guarded post-run override. -/
lemma overrideWrite_at (p : Params) (k : String) (f : ℚ → ℚ) (t : Table)
    (pt sz : String) (yr : Int) (q : String) :
    overrideWrite p k f t pt sz yr q =
      if q = k ∧ 0 < p.getD k then f (p.getD k) else t pt sz yr q := by
  unfold overrideWrite setParamAll
  split_ifs <;> simp_all

/-- Pointwise value of the whole post-run pass. -/
lemma after_run_at (p : Params) (t : Table) (pt sz : String) (yr : Int)
    (q : String) :
    set_vehicle_properties_after_run p t pt sz yr q =
      if q = "range" ∧ 0 < p.getD "range" then p.getD "range"
      else if q = "electricity consumption" ∧
          0 < p.getD "electricity consumption" then
        p.getD "electricity consumption" / 100
      else if q = "fuel consumption" ∧ 0 < p.getD "fuel consumption" then
        p.getD "fuel consumption" / 100
      else if q = "TtW energy" ∧ 0 < p.getD "TtW energy" then
        p.getD "TtW energy"
      else if q = "driving mass" ∧ 0 < p.getD "driving mass" then
        p.getD "driving mass"
      else t pt sz yr q := by
  unfold set_vehicle_properties_after_run
  rw [overrideWrite_at, overrideWrite_at, overrideWrite_at, overrideWrite_at,
    overrideWrite_at]

/-! The claims. -/

/-- C4: after the Powertrain Classifier runs, every (size, year) coordinate
of the table holds combustion power share `primary_engine_power /
total_engine_power` for the hybrid powertrains (with positive total engine
power), exactly 1 for the pure combustion powertrains, and exactly 0 for the
battery- and fuel-cell-electric powertrains regardless of any power fields
of the request. -/
theorem C4_combustion_power_share_values (p : Params) (t : Table) :
    (∀ pe te : ℚ, (p.powertrain = "HEV-d" ∨ p.powertrain = "HEV-p") →
      p.fields "primary_engine_power" = some pe →
      p.fields "total_engine_power" = some te → 0 < te →
      ∃ t', set_combustion_power_share p t = .ok t' ∧
        ∀ pt sz yr, t' pt sz yr "combustion power share" = pe / te) ∧
    ((p.powertrain = "ICEV-d" ∨ p.powertrain = "ICEV-p" ∨
        p.powertrain = "ICEV-g") →
      ∃ t', set_combustion_power_share p t = .ok t' ∧
        ∀ pt sz yr, t' pt sz yr "combustion power share" = 1) ∧
    ((p.powertrain = "BEV" ∨ p.powertrain = "FCEV") →
      ∃ t', set_combustion_power_share p t = .ok t' ∧
        ∀ pt sz yr, t' pt sz yr "combustion power share" = 0) := by
  refine ⟨?_, ?_, ?_⟩
  · intro pe te hpt hpe hte htpos
    refine ⟨setParamAll "combustion power share" (pe / te) t, ?_, ?_⟩
    · unfold set_combustion_power_share
      rw [if_pos hpt]
      simp [Params.get, hpe, hte, ne_of_gt htpos, bind, Except.bind]
    · intro pt sz yr; simp [setParamAll]
  · rintro (h | h | h) <;>
      exact ⟨setParamAll "combustion power share" 1 t,
        by simp [set_combustion_power_share, h],
        fun pt sz yr => by simp [setParamAll]⟩
  · rintro (h | h) <;>
      exact ⟨setParamAll "combustion power share" 0 t,
        by simp [set_combustion_power_share, h],
        fun pt sz yr => by simp [setParamAll]⟩

/-- Witness for C4 at three concrete requests. -/
theorem C4_combustion_power_share_values_witness :
    isOkE (set_combustion_power_share hevRequest (constTable 3)) = true ∧
    resTable (set_combustion_power_share hevRequest (constTable 3))
      "HEV-p" "Medium" 2020 "combustion power share" = 60 / 100 ∧
    resTable (set_combustion_power_share icevRequest (constTable 3))
      "ICEV-d" "Medium" 2020 "combustion power share" = 1 ∧
    resTable (set_combustion_power_share bevRequest (constTable 3))
      "BEV" "Medium" 2020 "combustion power share" = 0 := by
  obtain ⟨t1, e1, v1⟩ :=
    (C4_combustion_power_share_values hevRequest (constTable 3)).1 60 100
      (Or.inr rfl) (by decide) (by decide) (by norm_num)
  obtain ⟨t2, e2, v2⟩ :=
    (C4_combustion_power_share_values icevRequest (constTable 3)).2.1
      (Or.inl rfl)
  obtain ⟨t3, e3, v3⟩ :=
    (C4_combustion_power_share_values bevRequest (constTable 3)).2.2
      (Or.inl rfl)
  refine ⟨by rw [e1]; rfl, ?_, ?_, ?_⟩
  · rw [e1]; simpa [resTable] using v1 "HEV-p" "Medium" 2020
  · rw [e2]; simpa [resTable] using v2 "ICEV-d" "Medium" 2020
  · rw [e3]; simpa [resTable] using v3 "BEV" "Medium" 2020

/-- C9: the Powertrain Classifier writes nothing for the plug-in hybrid and
charge-sustaining plug-in powertrains — the table comes back unchanged — and
in general the classifier never changes any parameter other than
"combustion power share". -/
theorem C9_classifier_plugin_frame (p : Params) (t : Table)
    (hpt : p.powertrain = "PHEV-d" ∨ p.powertrain = "PHEV-p" ∨
      p.powertrain = "PHEV-c-d" ∨ p.powertrain = "PHEV-c-p") :
    set_combustion_power_share p t = .ok t ∧
    ∀ (q : Params) (t' : Table), set_combustion_power_share q t = .ok t' →
      ∀ pt sz yr par, par ≠ "combustion power share" →
        t' pt sz yr par = t pt sz yr par := by
  constructor
  · rcases hpt with h | h | h | h <;> simp [set_combustion_power_share, h]
  · intro q t' hq pt sz yr par hpar
    unfold set_combustion_power_share at hq
    split_ifs at hq with h1 h2 h3
    · simp only [Params.get, bind, Except.bind] at hq
      rcases hfe : q.fields "primary_engine_power" with _ | pe <;>
        rw [hfe] at hq
      · simp at hq
      · rcases hft : q.fields "total_engine_power" with _ | te <;>
          rw [hft] at hq
        · simp at hq
        · simp only [] at hq
          split_ifs at hq
          injection hq with hq
          rw [← hq]; simp [setParamAll, hpar]
    · rw [Except.ok.injEq] at hq
      rw [← hq]; simp [setParamAll, hpar]
    · rw [Except.ok.injEq] at hq
      rw [← hq]; simp [setParamAll, hpar]
    · rw [Except.ok.injEq] at hq
      rw [← hq]

/-- Witness for C9 at a plug-in-diesel request, with the frame property
instantiated on a concrete classified pure-combustion table. -/
theorem C9_classifier_plugin_frame_witness :
    set_combustion_power_share phevParams (constTable 3) = .ok (constTable 3) ∧
    resTable (set_combustion_power_share icevRequest (constTable 3))
      "ICEV-d" "Medium" 2020 "fuel mass" =
      constTable 3 "ICEV-d" "Medium" 2020 "fuel mass" := by
  have h := C9_classifier_plugin_frame phevParams (constTable 3) (Or.inl rfl)
  have hicev : set_combustion_power_share icevRequest (constTable 3) =
      .ok (setParamAll "combustion power share" 1 (constTable 3)) := by
    simp [set_combustion_power_share, icevRequest]
  refine ⟨h.1, ?_⟩
  rw [hicev]
  exact h.2 icevRequest _ hicev "ICEV-d" "Medium" 2020 "fuel mass" (by decide)

/-- C2: a hybrid (non-plug-in) request whose total engine power is zero makes
the Powertrain Classifier fail at the combustion-power-share division (the
failure the spec's taxonomy names `InvalidOverrideError`, raised by Python as
`ZeroDivisionError`), and the whole pipeline aborts with that error. -/
theorem C2_hybrid_zero_total_power_aborts (E : Externals) (p : Params) (pe : ℚ)
    (hpt : p.powertrain = "HEV-d" ∨ p.powertrain = "HEV-p")
    (hpe : p.fields "primary_engine_power" = some pe)
    (hte : p.fields "total_engine_power" = some 0) :
    (∀ t, set_combustion_power_share p t = .error .zeroDivisionError) ∧
    initialize_model E p = .error .zeroDivisionError := by
  have hc : ∀ t, set_combustion_power_share p t = .error .zeroDivisionError := by
    intro t
    unfold set_combustion_power_share
    rw [if_pos hpt]
    simp [Params.get, hpe, hte, bind, Except.bind]
  refine ⟨hc, ?_⟩
  unfold initialize_model pipeline_mutations
  simp [hc, bind, Except.bind]

/-- Witness for C2 at a concrete hybrid request with zero total power. -/
theorem C2_hybrid_zero_total_power_aborts_witness :
    initialize_model stubExternals hevZeroTotalRequest =
      .error .zeroDivisionError := by
  exact (C2_hybrid_zero_total_power_aborts stubExternals hevZeroTotalRequest 60
    (Or.inr rfl) (by decide) (by decide)).2

/-- C3: whenever the Output Validator reports at least one violation for the
model produced by the mutation stages, `initialize_model` raises
`ValidationError` (Python `ValueError`) carrying the full violation list; the
validator is only consulted on the fully mutated model, and no model or
impact result is returned. -/
theorem C3_validation_gate (E : Externals) (p : Params) (m : Table)
    (errors : List String) (hm : pipeline_mutations E p = .ok m)
    (herr : E.validate m p = errors) (hne : errors ≠ []) :
    initialize_model E p = .error (.validationError errors) := by
  unfold initialize_model
  simp [hm, bind, Except.bind, herr, hne]

/-- Witness for C3: a stubbed validator reporting one violation on a
battery-electric car request. -/
theorem C3_validation_gate_witness :
    initialize_model stubExternals bevRequest =
      .error (.validationError ["range deviates"]) := by
  have hm : pipeline_mutations stubExternals bevRequest =
      .ok (setParamAll "combustion power share" 0 (constTable 3)) := by
    unfold pipeline_mutations
    simp [set_combustion_power_share, bevRequest, stubExternals, bind,
      Except.bind, set_vehicle_properties_before_run,
      set_vehicle_properties_after_run, overrideWrite, Params.getD, mkFields,
      constTable]
  exact C3_validation_gate stubExternals bevRequest _ ["range deviates"] hm rfl
    (by simp)

/-- C5: each post-run override is applied only when present and positive —
driving mass, TtW energy and range are written as supplied, the two
consumption figures are written divided by 100 — and any override that is
zero or omitted leaves its parameter untouched at every coordinate. -/
theorem C5_post_run_overrides (p : Params) (t : Table) :
    (∀ v : ℚ, p.fields "driving mass" = some v → 0 < v → ∀ pt sz yr,
      set_vehicle_properties_after_run p t pt sz yr "driving mass" = v) ∧
    (∀ v : ℚ, p.fields "TtW energy" = some v → 0 < v → ∀ pt sz yr,
      set_vehicle_properties_after_run p t pt sz yr "TtW energy" = v) ∧
    (∀ v : ℚ, p.fields "fuel consumption" = some v → 0 < v → ∀ pt sz yr,
      set_vehicle_properties_after_run p t pt sz yr "fuel consumption" =
        v / 100) ∧
    (∀ v : ℚ, p.fields "electricity consumption" = some v → 0 < v →
      ∀ pt sz yr,
      set_vehicle_properties_after_run p t pt sz yr "electricity consumption" =
        v / 100) ∧
    (∀ v : ℚ, p.fields "range" = some v → 0 < v → ∀ pt sz yr,
      set_vehicle_properties_after_run p t pt sz yr "range" = v) ∧
    (∀ k ∈ ["driving mass", "TtW energy", "fuel consumption",
        "electricity consumption", "range"],
      (p.fields k = none ∨ p.fields k = some 0) → ∀ pt sz yr,
        set_vehicle_properties_after_run p t pt sz yr k = t pt sz yr k) := by
  refine ⟨?_, ?_, ?_, ?_, ?_, ?_⟩
  · intro v hv hpos pt sz yr
    rw [after_run_at]; simp [Params.getD, hv, hpos]
  · intro v hv hpos pt sz yr
    rw [after_run_at]; simp [Params.getD, hv, hpos]
  · intro v hv hpos pt sz yr
    rw [after_run_at]; simp [Params.getD, hv, hpos]
  · intro v hv hpos pt sz yr
    rw [after_run_at]; simp [Params.getD, hv, hpos]
  · intro v hv hpos pt sz yr
    rw [after_run_at]; simp [Params.getD, hv, hpos]
  · intro k hk hv pt sz yr
    have hz : p.getD k = 0 := by
      rcases hv with hv | hv <;> simp [Params.getD, hv]
    simp only [List.mem_cons, List.not_mem_nil, or_false] at hk
    rw [after_run_at]
    rcases hk with h | h | h | h | h <;> subst h <;> simp [hz]

/-- Witness for C5: the five overrides at a concrete request, and the
untouched-parameter contract at a request without a range override. -/
theorem C5_post_run_overrides_witness :
    set_vehicle_properties_after_run postRunRequest (constTable 3)
      "ICEV-d" "Medium" 2020 "driving mass" = 1900 ∧
    set_vehicle_properties_after_run postRunRequest (constTable 3)
      "ICEV-d" "Medium" 2020 "TtW energy" = 2500 ∧
    set_vehicle_properties_after_run postRunRequest (constTable 3)
      "ICEV-d" "Medium" 2020 "fuel consumption" = 6 / 100 ∧
    set_vehicle_properties_after_run postRunRequest (constTable 3)
      "ICEV-d" "Medium" 2020 "electricity consumption" = 14 / 100 ∧
    set_vehicle_properties_after_run postRunRequest (constTable 3)
      "ICEV-d" "Medium" 2020 "range" = 700 ∧
    set_vehicle_properties_after_run bevRequest (constTable 3)
      "BEV" "Medium" 2020 "range" = constTable 3 "BEV" "Medium" 2020 "range" := by
  have h := C5_post_run_overrides postRunRequest (constTable 3)
  have h2 := C5_post_run_overrides bevRequest (constTable 3)
  exact ⟨h.1 1900 (by decide) (by norm_num) _ _ _,
    h.2.1 2500 (by decide) (by norm_num) _ _ _,
    h.2.2.1 6 (by decide) (by norm_num) _ _ _,
    h.2.2.2.1 14 (by decide) (by norm_num) _ _ _,
    h.2.2.2.2.1 700 (by decide) (by norm_num) _ _ _,
    h2.2.2.2.2.2 "range" (by simp) (Or.inl (by decide)) _ _ _⟩

/-- C6: the pre-run pass sets fuel mass to fuel tank volume times the fuel
density of the request's powertrain when the volume is present and positive,
and leaves the table untouched when it is absent or zero. -/
theorem C6_pre_run_fuel_mass (density : String → ℚ) (p : Params) (t : Table) :
    (∀ v : ℚ, p.fields "fuel tank volume" = some v → 0 < v → ∀ pt sz yr,
      set_vehicle_properties_before_run density p t pt sz yr "fuel mass" =
        v * density p.powertrain) ∧
    ((p.fields "fuel tank volume" = none ∨
        p.fields "fuel tank volume" = some 0) →
      set_vehicle_properties_before_run density p t = t) := by
  constructor
  · intro v hv hpos pt sz yr
    unfold set_vehicle_properties_before_run
    simp only [Params.getD, hv, Option.getD_some]
    rw [if_pos hpos]
    simp [setParamAll]
  · rintro (hv | hv) <;>
      unfold set_vehicle_properties_before_run <;>
      simp [Params.getD, hv]

/-- Witness for C6 at a diesel request with a 50-liter tank, and the
untouched case at a request without the field. -/
theorem C6_pre_run_fuel_mass_witness :
    set_vehicle_properties_before_run (fun _ => 832 / 1000) icevRequest
      (constTable 3) "ICEV-d" "Medium" 2020 "fuel mass" = 50 * (832 / 1000) ∧
    set_vehicle_properties_before_run (fun _ => 832 / 1000) bevRequest
      (constTable 3) = constTable 3 := by
  exact ⟨(C6_pre_run_fuel_mass (fun _ => 832 / 1000) icevRequest
      (constTable 3)).1 50 (by decide) (by norm_num) _ _ _,
    (C6_pre_run_fuel_mass (fun _ => 832 / 1000) bevRequest (constTable 3)).2
      (Or.inl (by decide))⟩

/-- C7: the post-run override pass is idempotent — applying it twice with the
same request gives the same table as applying it once, because every override
is an absolute overwrite gated only on the request. -/
theorem C7_post_run_idempotent (p : Params) (t : Table) :
    set_vehicle_properties_after_run p (set_vehicle_properties_after_run p t) =
      set_vehicle_properties_after_run p t := by
  funext pt sz yr q
  rw [after_run_at, after_run_at]
  split_ifs <;> rfl


/-- Reading out the request values reduces the adjuster to its body when all
eight fields are present. -/
lemma plugin_run_eq (svm scm : Table → Table) (p : Params) (t : Table)
    (ec fc ttw ees curb primary power dm : ℚ)
    (h1 : p.fields "electricity consumption" = some ec)
    (h2 : p.fields "fuel consumption" = some fc)
    (h3 : p.fields "TtW energy" = some ttw)
    (h4 : p.fields "electric energy stored" = some ees)
    (h5 : p.fields "curb mass" = some curb)
    (h6 : p.fields "primary power" = some primary)
    (h7 : p.fields "power" = some power)
    (h8 : p.fields "driving mass" = some dm) :
    set_properties_for_plugin svm scm p t =
      plugin_apply svm scm p.powertrain ec fc ttw ees curb primary power dm t := by
  unfold set_properties_for_plugin
  simp [Params.get, h1, h2, h3, h4, h5, h6, h7, h8, bind, Except.bind]

/-- With a missing field, the adjuster surfaces a `KeyError` naming one of
the eight read fields. -/
lemma plugin_missing_key (svm scm : Table → Table) (p : Params) (t : Table)
    (h : ¬ pluginFieldsPresent p) :
    ∃ k ∈ pluginKeys, p.fields k = none ∧
      set_properties_for_plugin svm scm p t = .error (.keyError k) := by
  rcases h1 : p.fields "electricity consumption" with _ | ec
  · exact ⟨_, by simp [pluginKeys], h1, by
      unfold set_properties_for_plugin
      simp [Params.get, h1, bind, Except.bind]⟩
  rcases h2 : p.fields "fuel consumption" with _ | fc
  · exact ⟨_, by simp [pluginKeys], h2, by
      unfold set_properties_for_plugin
      simp [Params.get, h1, h2, bind, Except.bind]⟩
  rcases h3 : p.fields "TtW energy" with _ | ttw
  · exact ⟨_, by simp [pluginKeys], h3, by
      unfold set_properties_for_plugin
      simp [Params.get, h1, h2, h3, bind, Except.bind]⟩
  rcases h4 : p.fields "electric energy stored" with _ | ees
  · exact ⟨_, by simp [pluginKeys], h4, by
      unfold set_properties_for_plugin
      simp [Params.get, h1, h2, h3, h4, bind, Except.bind]⟩
  rcases h5 : p.fields "curb mass" with _ | curb
  · exact ⟨_, by simp [pluginKeys], h5, by
      unfold set_properties_for_plugin
      simp [Params.get, h1, h2, h3, h4, h5, bind, Except.bind]⟩
  rcases h6 : p.fields "primary power" with _ | primary
  · exact ⟨_, by simp [pluginKeys], h6, by
      unfold set_properties_for_plugin
      simp [Params.get, h1, h2, h3, h4, h5, h6, bind, Except.bind]⟩
  rcases h7 : p.fields "power" with _ | power
  · exact ⟨_, by simp [pluginKeys], h7, by
      unfold set_properties_for_plugin
      simp [Params.get, h1, h2, h3, h4, h5, h6, h7, bind, Except.bind]⟩
  rcases h8 : p.fields "driving mass" with _ | dm
  · exact ⟨_, by simp [pluginKeys], h8, by
      unfold set_properties_for_plugin
      simp [Params.get, h1, h2, h3, h4, h5, h6, h7, h8, bind, Except.bind]⟩
  exfalso
  exact h (fun k hk => by
    simp only [pluginKeys, List.mem_cons, List.not_mem_nil, or_false] at hk
    rcases hk with rfl | rfl | rfl | rfl | rfl | rfl | rfl | rfl <;>
      simp [h1, h2, h3, h4, h5, h6, h7, h8])

/-- With every field present and a plug-in powertrain, the adjuster returns a
model. -/
lemma plugin_all_present_ok (svm scm : Table → Table) (p : Params) (t : Table)
    (hpt : p.powertrain = "PHEV-d" ∨ p.powertrain = "PHEV-p")
    (hpres : pluginFieldsPresent p) :
    isOkE (set_properties_for_plugin svm scm p t) = true := by
  obtain ⟨ec, h1⟩ := Option.isSome_iff_exists.mp
    (hpres "electricity consumption" (by simp [pluginKeys]))
  obtain ⟨fc, h2⟩ := Option.isSome_iff_exists.mp
    (hpres "fuel consumption" (by simp [pluginKeys]))
  obtain ⟨ttw, h3⟩ := Option.isSome_iff_exists.mp
    (hpres "TtW energy" (by simp [pluginKeys]))
  obtain ⟨ees, h4⟩ := Option.isSome_iff_exists.mp
    (hpres "electric energy stored" (by simp [pluginKeys]))
  obtain ⟨curb, h5⟩ := Option.isSome_iff_exists.mp
    (hpres "curb mass" (by simp [pluginKeys]))
  obtain ⟨primary, h6⟩ := Option.isSome_iff_exists.mp
    (hpres "primary power" (by simp [pluginKeys]))
  obtain ⟨power, h7⟩ := Option.isSome_iff_exists.mp
    (hpres "power" (by simp [pluginKeys]))
  obtain ⟨dm, h8⟩ := Option.isSome_iff_exists.mp
    (hpres "driving mass" (by simp [pluginKeys]))
  rw [plugin_run_eq svm scm p t ec fc ttw ees curb primary power dm
    h1 h2 h3 h4 h5 h6 h7 h8]
  rcases hpt with hp | hp <;> simp [plugin_apply, hp, isOkE]


/-- C10: for a plug-in hybrid request reaching the adjuster, the eight fields
electricity consumption, fuel consumption, TtW energy, electric energy
stored, curb mass, primary power, power and driving mass are read
unconditionally: the adjustment succeeds exactly when all are present, an
absent field surfaces as a `KeyError` lookup failure, and a field supplied
as zero is written into the table rather than skipped. -/
theorem C10_plugin_reads_unconditional (p : Params)
    (hpt : p.powertrain = "PHEV-d" ∨ p.powertrain = "PHEV-p") :
    (∀ svm scm t, isOkE (set_properties_for_plugin svm scm p t) = true ↔
      pluginFieldsPresent p) ∧
    (∀ svm scm t e, set_properties_for_plugin svm scm p t = .error e →
      ∃ k ∈ pluginKeys, e = .keyError k ∧ p.fields k = none) ∧
    (p.fields "TtW energy" = some 0 → ∀ t t',
      set_properties_for_plugin (fun a => a) (fun a => a) p t = .ok t' →
      ∀ sz yr, t' p.powertrain sz yr "TtW energy" = 0) := by
  refine ⟨?_, ?_, ?_⟩
  · intro svm scm t
    constructor
    · intro hok
      by_contra h
      obtain ⟨k, _, _, herr⟩ := plugin_missing_key svm scm p t h
      rw [herr] at hok
      simp [isOkE] at hok
    · intro h
      exact plugin_all_present_ok svm scm p t hpt h
  · intro svm scm t e herr
    by_cases h : pluginFieldsPresent p
    · have hok := plugin_all_present_ok svm scm p t hpt h
      rw [herr] at hok
      simp [isOkE] at hok
    · obtain ⟨k, hk, hnone, herr2⟩ := plugin_missing_key svm scm p t h
      rw [herr] at herr2
      injection herr2 with herr2
      exact ⟨k, hk, herr2, hnone⟩
  · intro httw t t' hok sz yr
    have hpres : pluginFieldsPresent p := by
      by_contra h
      obtain ⟨k, _, _, herr⟩ :=
        plugin_missing_key (fun a => a) (fun a => a) p t h
      rw [herr] at hok
      cases hok
    obtain ⟨ec, h1⟩ := Option.isSome_iff_exists.mp
      (hpres "electricity consumption" (by simp [pluginKeys]))
    obtain ⟨fc, h2⟩ := Option.isSome_iff_exists.mp
      (hpres "fuel consumption" (by simp [pluginKeys]))
    obtain ⟨ees, h4⟩ := Option.isSome_iff_exists.mp
      (hpres "electric energy stored" (by simp [pluginKeys]))
    obtain ⟨curb, h5⟩ := Option.isSome_iff_exists.mp
      (hpres "curb mass" (by simp [pluginKeys]))
    obtain ⟨primary, h6⟩ := Option.isSome_iff_exists.mp
      (hpres "primary power" (by simp [pluginKeys]))
    obtain ⟨power, h7⟩ := Option.isSome_iff_exists.mp
      (hpres "power" (by simp [pluginKeys]))
    obtain ⟨dm, h8⟩ := Option.isSome_iff_exists.mp
      (hpres "driving mass" (by simp [pluginKeys]))
    rw [plugin_run_eq (fun a => a) (fun a => a) p t ec fc 0 ees curb primary
      power dm h1 h2 httw h4 h5 h6 h7 h8] at hok
    rcases hpt with hp | hp <;>
      rw [hp] at hok <;>
      simp only [plugin_apply] at hok <;>
      split_ifs at hok <;>
      simp_all <;>
      rw [← hok] <;>
      simp [plugin_range_ratio_stage, setParamAll, plugin_overrides,
        setParamFor, hp]

/-- Witness for C10: the adjuster succeeds on a complete plug-in request, and
a TtW energy supplied as zero is written into the table (the base table held
3 there). -/
theorem C10_plugin_reads_unconditional_witness :
    isOkE (set_properties_for_plugin (fun a => a) (fun a => a) phevZeroTtwParams
      (constTable 3)) = true ∧
    resTable (set_properties_for_plugin (fun a => a) (fun a => a)
      phevZeroTtwParams (constTable 3)) "PHEV-d" "Medium" 2020 "TtW energy" = 0 := by
  have hiff := (C10_plugin_reads_unconditional phevZeroTtwParams
    (Or.inl rfl)).1 (fun a => a) (fun a => a) (constTable 3)
  have hok : isOkE (set_properties_for_plugin (fun a => a) (fun a => a)
      phevZeroTtwParams (constTable 3)) = true := hiff.mpr (by decide)
  refine ⟨hok, ?_⟩
  rcases he : set_properties_for_plugin (fun a => a) (fun a => a)
      phevZeroTtwParams (constTable 3) with e | t'
  · rw [he] at hok; simp [isOkE] at hok
  · have := (C10_plugin_reads_unconditional phevZeroTtwParams
      (Or.inl rfl)).2.2 (by decide) (constTable 3) t' he "Medium" 2020
    simpa [resTable, he] using this


/-- On the all-fields-present plug-in-diesel request, the adjuster reduces to
its body with the concrete request values, for any starting table. -/
lemma plugin_phev_eval (t : Table) :
    set_properties_for_plugin (fun a => a) (fun a => a) phevParams t =
      .ok (plugin_range_ratio_stage "PHEV-d" "PHEV-c-d"
        (setParamAll "driving mass" 1600
          (plugin_overrides "PHEV-d" 20 5 12000 40 1500 80 120 t))) := by
  rw [plugin_run_eq (fun a => a) (fun a => a) phevParams t 20 5 12000 40 1500
    80 120 1600 (by decide) (by decide) (by decide) (by decide) (by decide)
    (by decide) (by decide) (by decide)]
  simp [plugin_apply, phevParams]

/-- C1 counterexample: on a plug-in-diesel request whose plug-in variant has
range zero, `set_properties_for_plugin` does NOT fail — the array division of
lines 105-106 raises no exception — it returns the mutated model, and the
plug-in fuel mass is changed from its pre-adjustment value 30 (it is divided
by the non-finite ratio, becoming 0). -/
theorem C1_plugin_zero_range_counterexample :
    isOkE (set_properties_for_plugin (fun a => a) (fun a => a) phevParams
      phevZeroRangeTable) = true ∧
    phevZeroRangeTable "PHEV-d" "Medium" 2020 "fuel mass" = 30 ∧
    resTable (set_properties_for_plugin (fun a => a) (fun a => a) phevParams
      phevZeroRangeTable) "PHEV-d" "Medium" 2020 "fuel mass" = 0 := by
  refine ⟨by rw [plugin_phev_eval]; rfl, by simp [phevZeroRangeTable], ?_⟩
  rw [plugin_phev_eval]
  simp [resTable, plugin_range_ratio_stage, setParamAll, plugin_overrides,
    setParamFor, phevZeroRangeTable]

/-- C1 amended: for a plug-in hybrid request with all eight fields present,
the adjuster always returns the mutated model — including when the plug-in
range is zero; there is no `DegenerateRatioError` path in the code, and the
fuel mass is not left at its pre-adjustment value. -/
theorem C1_plugin_zero_range_no_error (svm scm : Table → Table) (p : Params)
    (t : Table)
    (hpt : p.powertrain = "PHEV-d" ∨ p.powertrain = "PHEV-p")
    (hpres : pluginFieldsPresent p) :
    isOkE (set_properties_for_plugin svm scm p t) = true :=
  plugin_all_present_ok svm scm p t hpt hpres

/-- Witness for the amended C1 at the concrete degenerate-range input. -/
theorem C1_plugin_zero_range_no_error_witness :
    isOkE (set_properties_for_plugin id id phevParams phevZeroRangeTable) =
      true :=
  C1_plugin_zero_range_no_error id id phevParams phevZeroRangeTable
    (Or.inl rfl) (by decide)

/-- C8: the plug-in adjuster's glider-base-mass correction is additive — it
adds the delta between the requested curb mass and the table's current curb
mass — so the adjustment is a single-application contract: applying it twice
on a concrete model changes the result relative to applying it once. -/
theorem C8_glider_additive_single_application :
    (∀ (ptKey : String) (ec fc ttw ees curb primary power : ℚ) (t : Table)
      (sz : String) (yr : Int),
      plugin_overrides ptKey ec fc ttw ees curb primary power t ptKey sz yr
        "glider base mass" =
        t ptKey sz yr "glider base mass" +
          (curb - t ptKey sz yr "curb mass")) ∧
    (set_properties_for_plugin (fun a => a) (fun a => a) phevParams
        phevBase).bind
      (set_properties_for_plugin (fun a => a) (fun a => a) phevParams) ≠
      set_properties_for_plugin (fun a => a) (fun a => a) phevParams
        phevBase := by
  constructor
  · intro ptKey ec fc ttw ees curb primary power t sz yr
    simp [plugin_overrides, setParamFor]
  · intro h
    have hg := congrArg gliderAt h
    rw [plugin_phev_eval phevBase] at hg
    simp only [Except.bind] at hg
    rw [plugin_phev_eval] at hg
    simp [gliderAt, resTable, plugin_range_ratio_stage, setParamAll,
      plugin_overrides, setParamFor, phevBase] at hg
    norm_num at hg

end FlaskCarculator
